import Mathlib

/-!
Verification development for the AutoCAD MCP server
(`autocad_mcp/server.py`): a shallow embedding of its color resolver,
layer classifier, layer registry, and geometry synthesizer, with theorems
about each.
-/

namespace AutoCADMCP

/-! ### Color resolver (`get_color_index`, server.py lines 78–83)

The Python method accepts either an integer (passed through) or a string
name; we embed the union as an inductive type. -/

inductive ColorInput where
  | int : Int → ColorInput
  | name : String → ColorInput
deriving DecidableEq

/-- Python's `str.lower()`, embedded character by character (the inputs the
program classifies are ASCII, where `Char.toLower` agrees with Python). -/
def pyLower (s : String) : String :=
  ⟨s.data.map Char.toLower⟩

/-- The `color_map` dict of `AutoCADCOMServer.__init__` (lines 30–43),
in declaration order. -/
def color_map : List (String × Int) :=
  [("red", 1), ("yellow", 2), ("green", 3), ("cyan", 4), ("blue", 5),
   ("magenta", 6), ("white", 7), ("gray", 8), ("light_gray", 9),
   ("black", 0), ("bylayer", 256), ("byblock", 0)]

/-- `get_color_index` (lines 78–83): integers pass through; otherwise the
lower-cased name is looked up in `color_map` with default 7 (white). -/
def get_color_index : ColorInput → Int
  | .int i => i
  | .name s => (color_map.lookup (pyLower s)).getD 7

/-! ### Layer classifier (`get_layer_for_structure_type`, lines 147–186) -/

structure LayerDef where
  name : String
  color : String
  description : String
deriving DecidableEq

/-- The `layer_definitions` dict (lines 46–58), in declaration order. -/
def layer_definitions : List (String × LayerDef) :=
  [("walls", ⟨"WALLS", "white", "Building walls and partitions"⟩),
   ("doors", ⟨"DOORS", "green", "Door openings and frames"⟩),
   ("windows", ⟨"WINDOWS", "cyan", "Window openings and frames"⟩),
   ("furniture", ⟨"FURNITURE", "yellow", "Furniture and fixtures"⟩),
   ("electrical", ⟨"ELECTRICAL", "red", "Electrical fixtures and outlets"⟩),
   ("plumbing", ⟨"PLUMBING", "blue", "Plumbing fixtures and pipes"⟩),
   ("hvac", ⟨"HVAC", "magenta", "HVAC ducts and equipment"⟩),
   ("structure", ⟨"STRUCTURE", "gray", "Structural elements"⟩),
   ("annotation", ⟨"ANNOTATION", "white", "Text and dimensions"⟩),
   ("site", ⟨"SITE", "green", "Site elements and landscaping"⟩),
   ("utilities", ⟨"UTILITIES", "red", "Utility lines and equipment"⟩)]

/-- The ordered `type_mapping` table inside `get_layer_for_structure_type`
(lines 152–178), in declaration order. -/
def type_mapping : List (String × String) :=
  [("wall", "walls"), ("door", "doors"), ("window", "windows"),
   ("furniture", "furniture"), ("chair", "furniture"), ("table", "furniture"),
   ("bed", "furniture"), ("electrical", "electrical"), ("outlet", "electrical"),
   ("switch", "electrical"), ("light", "electrical"), ("plumbing", "plumbing"),
   ("toilet", "plumbing"), ("sink", "plumbing"), ("hvac", "hvac"),
   ("vent", "hvac"), ("duct", "hvac"), ("structure", "structure"),
   ("beam", "structure"), ("column", "structure"), ("text", "annotation"),
   ("dimension", "annotation"), ("site", "site"), ("tree", "site"),
   ("utility", "utilities")]

/-- Python's `key in s` substring test. -/
def containsSubstr (needle haystack : String) : Bool :=
  decide (needle.data <:+: haystack.data)

/-- The dict access `layer_definitions[layer_type]["name"]` (line 183);
every value of `type_mapping` is a key of `layer_definitions`, so the
`none` branch is unreachable on the code's own inputs. -/
def layer_name_of (layer_type : String) : String :=
  match layer_definitions.lookup layer_type with
  | some d => d.name
  | none => "0"

/-- The `for key, layer_type in type_mapping.items()` loop (lines 181–183):
return on the first key that is a substring of the lower-cased input. -/
def find_layer_type (lower : String) : List (String × String) → Option String
  | [] => none
  | (k, lt) :: rest =>
      if containsSubstr k lower then some lt else find_layer_type lower rest

/-- `get_layer_for_structure_type` (lines 147–186): lower-case, scan the
table in order, map the first matching keyword's category to its layer
name, default `"0"`. -/
def get_layer_for_structure_type (structure_type : String) : String :=
  match find_layer_type (pyLower structure_type) type_mapping with
  | some lt => layer_name_of lt
  | none => "0"

/-! ### Geometry synthesizer

Coordinates are embedded as real numbers (the Python code computes with
floats; we model the intended exact arithmetic).  A point is an (x, y)
pair: the code's optional z coordinate is always passed through as 0 in
the thickness geometry, so it is omitted. -/

abbrev Point := ℝ × ℝ

abbrev Segment := Point × Point

/-- `calculate_parallel_points` (lines 1525–1545): offset both endpoints
by the left perpendicular unit vector scaled by `thickness / 2`; a
zero-length segment is returned unchanged. -/
noncomputable def calculate_parallel_points (start stop : Point) (thickness : ℝ) :
    Point × Point :=
  let dx := stop.1 - start.1
  let dy := stop.2 - start.2
  let length := Real.sqrt (dx ^ 2 + dy ^ 2)
  if length = 0 then (start, stop)
  else
    let offset := thickness / 2
    let perp_x := -dy / length * offset
    let perp_y := dx / length * offset
    ((start.1 + perp_x, start.2 + perp_y), (stop.1 + perp_x, stop.2 + perp_y))

/-- The segment-creation calls issued by `create_line` (lines 1182–1287)
when every external `AddLine` call succeeds: the main segment always;
and when `thickness > 0` (and the main call succeeded) the parallel
segment plus the two end caps, in issue order. -/
noncomputable def create_line_segments (start stop : Point) (thickness : ℝ) :
    List Segment :=
  if 0 < thickness then
    let par := calculate_parallel_points start stop thickness
    [(start, stop), (par.1, par.2), (start, par.1), (stop, par.2)]
  else
    [(start, stop)]

/-- The circle-creation calls issued by `create_circle` (lines 1289–1358)
as (center, radius) pairs, in issue order: the main circle always; and
when `thickness > 0` the outer circle at `radius + thickness / 2` then
the inner circle at `max(0.1, radius - thickness / 2)`. -/
noncomputable def create_circle_calls (center : Point) (radius thickness : ℝ) :
    List (Point × ℝ) :=
  if 0 < thickness then
    [(center, radius), (center, radius + thickness / 2),
     (center, max 0.1 (radius - thickness / 2))]
  else
    [(center, radius)]

/-- The four `create_line` calls issued by `create_rectangle`
(lines 1360–1394) as (start, stop, thickness) triples, in issue order:
bottom, right, top, left. -/
def create_rectangle_lines (corner1 corner2 : Point) (thickness : ℝ) :
    List (Point × Point × ℝ) :=
  let x1 := corner1.1; let y1 := corner1.2
  let x2 := corner2.1; let y2 := corner2.2
  [((x1, y1), (x2, y1), thickness),
   ((x2, y1), (x2, y2), thickness),
   ((x2, y2), (x1, y2), thickness),
   ((x1, y2), (x1, y1), thickness)]

/-- `create_wall` (lines 485–493): substitute the default wall thickness
0.1 when the requested thickness is not positive, then delegate to
`create_line`; we record the issued segments. -/
noncomputable def create_wall_segments (start stop : Point) (thickness : ℝ) :
    List Segment :=
  create_line_segments start stop (if 0 < thickness then thickness else 0.1)

/-- The Python `None`-or-string color argument of `create_structure`. -/
def resolve_structure_color (color : Option String) (layer_name : String) : String :=
  match color with
  | some c => c
  | none =>
      match layer_definitions.find? (fun kv => kv.2.name == layer_name) with
      | some kv => kv.2.color
      | none => "bylayer"

/-- The layer, color, and issued wall segments of
`create_structure(structure_type="wall", custom_layer=None)`
(lines 398–493), assuming the external calls succeed: resolve the layer
via the classifier, default the color from `layer_definitions` when
`None` (lines 423–430), and build the wall via `create_wall`. -/
noncomputable def create_structure_wall (start stop : Point) (color : Option String)
    (thickness : ℝ) : String × String × List Segment :=
  let layer_name := get_layer_for_structure_type "wall"
  let color := resolve_structure_color color layer_name
  (layer_name, color, create_wall_segments start stop thickness)

/-! ### Layer registry (`create_or_get_layer`, lines 93–123)

The drawing's layer table is modelled as the list of its layers in
creation order.  The connection is assumed established (on connection
failure the method returns `False` without touching the table). -/

structure Layer where
  name : String
  color : Int
  description : String
deriving DecidableEq

/-- `create_or_get_layer` (lines 93–123): if a layer of the given name
exists, return success without mutating it; otherwise append a new layer
with the resolved color index and the given description (the code's
best-effort `Description` assignment is modelled as succeeding), and
return success. -/
def create_or_get_layer (layers : List Layer) (layer_name : String)
    (color : ColorInput) (description : String) : List Layer × Bool :=
  if layers.any (fun l => l.name == layer_name) then
    (layers, true)
  else
    (layers ++ [⟨layer_name, get_color_index color, description⟩], true)

/-! ### `create_line` result shape (lines 1182–1287)

`safe_operation` (lines 68–76) swallows every exception of the wrapped
call and returns `None`; we model each external `AddLine` outcome as an
`Option String` (`some h` = the created entity whose `Handle` reads back
as `h`, `none` = the call threw and `safe_operation` returned `None`).
Handle reads are modelled as succeeding (their fallbacks `"line_main"`
etc. only replace one placeholder string by another). -/

inductive CreateResult where
  | error (msg : String)
  | success (handles : List String) (warning : Option String)
deriving DecidableEq

/-- The dictionary returned by `create_line` as a function of the
connection state and the outcomes of the four external calls.  Not
connected → the `{"error": ...}` dict (line 1186).  Otherwise the main
handle, or the placeholder `"line_created"` when the main call threw
(lines 1201–1209), then — only when `thickness > 0` and the main call
succeeded — the parallel and cap handles that were obtained
(lines 1212–1266); the result always has `success: True` and no warning
(lines 1270–1278; the `except` branch at lines 1279–1287 is unreachable,
every external call being wrapped in `safe_operation`). -/
noncomputable def create_line_result (connected : Bool)
    (mainOutcome : Option String) (thickness : ℝ)
    (parallelOutcome cap1Outcome cap2Outcome : Option String) : CreateResult :=
  if connected = false then
    .error "Not connected to AutoCAD"
  else
    let handles :=
      match mainOutcome with
      | some h => [h]
      | none => ["line_created"]
    let handles :=
      if 0 < thickness ∧ mainOutcome.isSome then
        handles ++ parallelOutcome.toList ++ cap1Outcome.toList ++
          cap2Outcome.toList
      else
        handles
    .success handles none

/-! ### `delete_all_entities` -/

inductive DeleteAllResult where
  | refused (msg : String)
  | deleted (count : Nat)
deriving DecidableEq

/-- Modelled from the spec: the method `delete_all_entities` is dispatched
by the tool handler (line 1165) and declared in the tool schema
(lines 1046–1060, "Must be set to true to confirm deletion of all
entities"), but its definition is absent from the source.  Per the spec,
"delete all" requires an explicit boolean flag and is otherwise refused,
a refusal removing no entities.  The drawing's entities are modelled as
a list of handles. -/
def delete_all_entities (entities : List String) (confirm : Bool) :
    List String × DeleteAllResult :=
  if confirm then
    ([], .deleted entities.length)
  else
    (entities, .refused "Deletion not confirmed")

/-! ### Helper lemmas -/

/-- The classifier loop returns the category of the first matching keyword:
everything declared before it fails the substring test. -/
theorem find_layer_type_first_match (lower : String)
    (pre post : List (String × String)) (k lt : String)
    (hpre : ∀ kv ∈ pre, containsSubstr kv.1 lower = false)
    (hk : containsSubstr k lower = true) :
    find_layer_type lower (pre ++ (k, lt) :: post) = some lt := by
  induction pre with
  | nil => simp [find_layer_type, hk]
  | cons p ps ih =>
      obtain ⟨a, b⟩ := p
      have ha := hpre (a, b) (List.mem_cons_self _ _)
      simp only [List.cons_append, find_layer_type, ha, Bool.false_eq_true,
        if_false]
      exact ih fun kv hkv => hpre kv (List.mem_cons_of_mem _ hkv)

/-- The classifier loop falls through when no keyword matches. -/
theorem find_layer_type_no_match (lower : String)
    (l : List (String × String))
    (h : ∀ kv ∈ l, containsSubstr kv.1 lower = false) :
    find_layer_type lower l = none := by
  induction l with
  | nil => rfl
  | cons p ps ih =>
      obtain ⟨a, b⟩ := p
      have ha := h (a, b) (List.mem_cons_self _ _)
      simp only [find_layer_type, ha, Bool.false_eq_true, if_false]
      exact ih fun kv hkv => h kv (List.mem_cons_of_mem _ hkv)

/-- `List.lookup` misses when no key of the association list matches. -/
theorem lookup_eq_none_of_no_key {β : Type} (l : List (String × β)) (k : String)
    (h : ∀ p ∈ l, p.1 ≠ k) : l.lookup k = none := by
  induction l with
  | nil => rfl
  | cons p ps ih =>
      obtain ⟨a, b⟩ := p
      have ha : (k == a) = false := by
        simp only [beq_eq_false_iff_ne]
        exact fun hk => h (a, b) (List.mem_cons_self _ _) hk.symm
      simp only [List.lookup, ha]
      exact ih fun q hq => h q (List.mem_cons_of_mem _ hq)

/-- Looking up any key of the concrete `color_map` yields its value. -/
theorem color_map_lookup_of_mem (k : String) (v : Int)
    (h : (k, v) ∈ color_map) : color_map.lookup k = some v := by
  fin_cases h <;> rfl

/-! ### Claim theorems -/

/-- C1: the layer classifier lower-cases the input and scans the fixed
ordered keyword table: the first keyword (in declaration order) that is a
substring of the lower-cased input determines the returned layer name;
when no keyword occurs the default layer `"0"` is returned; in particular
`"garage_door"` classifies as `"DOORS"` (first match `"door"`) and
`"kitchen_chair"` as `"FURNITURE"` (first match `"chair"`). -/
theorem claim1_layer_classifier :
    (∀ s pre post k lt, type_mapping = pre ++ (k, lt) :: post →
        containsSubstr k (pyLower s) = true →
        (∀ kv ∈ pre, containsSubstr kv.1 (pyLower s) = false) →
        get_layer_for_structure_type s = layer_name_of lt) ∧
    (∀ s, (∀ kv ∈ type_mapping, containsSubstr kv.1 (pyLower s) = false) →
        get_layer_for_structure_type s = "0") ∧
    get_layer_for_structure_type "garage_door" = "DOORS" ∧
    get_layer_for_structure_type "kitchen_chair" = "FURNITURE" := by
  refine ⟨?_, ?_, by decide, by decide⟩
  · intro s pre post k lt htable hk hpre
    unfold get_layer_for_structure_type
    rw [htable, find_layer_type_first_match (pyLower s) pre post k lt hpre hk]
  · intro s h
    unfold get_layer_for_structure_type
    rw [find_layer_type_no_match (pyLower s) type_mapping h]

/-- Witness for C1 at the concrete input `"garage_door"`: the keyword
`"door"` is declared second, after `"wall"` which does not occur. -/
theorem claim1_layer_classifier_witness :
    get_layer_for_structure_type "garage_door" = layer_name_of "doors" ∧
    layer_name_of "doors" = "DOORS" :=
  ⟨claim1_layer_classifier.1 "garage_door" [("wall", "walls")]
      [("window", "windows"), ("furniture", "furniture"),
       ("chair", "furniture"), ("table", "furniture"), ("bed", "furniture"),
       ("electrical", "electrical"), ("outlet", "electrical"),
       ("switch", "electrical"), ("light", "electrical"),
       ("plumbing", "plumbing"), ("toilet", "plumbing"), ("sink", "plumbing"),
       ("hvac", "hvac"), ("vent", "hvac"), ("duct", "hvac"),
       ("structure", "structure"), ("beam", "structure"),
       ("column", "structure"), ("text", "annotation"),
       ("dimension", "annotation"), ("site", "site"), ("tree", "site"),
       ("utility", "utilities")]
      "door" "doors" (by decide) (by decide) (by decide),
   by decide⟩

/-- C4: the color resolver passes integers through unchanged, maps every
key of the fixed color table (compared case-insensitively, i.e. after
lower-casing the input) to that key's index, and resolves every string
whose lower-casing is not a key to 7 (white) rather than failing. -/
theorem claim4_color_resolver :
    (∀ i : Int, get_color_index (.int i) = i) ∧
    (∀ k v, (k, v) ∈ color_map → ∀ s, pyLower s = k →
        get_color_index (.name s) = v) ∧
    (∀ s, (∀ kv ∈ color_map, kv.1 ≠ pyLower s) →
        get_color_index (.name s) = 7) := by
  refine ⟨fun i => rfl, ?_, ?_⟩
  · intro k v hmem s hs
    show (color_map.lookup (pyLower s)).getD 7 = v
    rw [hs, color_map_lookup_of_mem k v hmem]
    rfl
  · intro s h
    show (color_map.lookup (pyLower s)).getD 7 = 7
    rw [lookup_eq_none_of_no_key color_map (pyLower s) h]
    rfl

/-- Witness for C4: the integer 42 passes through; `"RED"` resolves via
the table key `"red"` to 1; the unknown name `"turquoise"` resolves
to 7. -/
theorem claim4_color_resolver_witness :
    get_color_index (.int 42) = 42 ∧
    get_color_index (.name "RED") = 1 ∧
    get_color_index (.name "turquoise") = 7 :=
  ⟨claim4_color_resolver.1 42,
   claim4_color_resolver.2.1 "red" 1 (by decide) "RED" (by decide),
   claim4_color_resolver.2.2 "turquoise" (by decide)⟩

/-- When a layer of the given name exists, `create_or_get_layer` takes
its existence branch and returns the table unchanged. -/
theorem create_or_get_layer_existing (layers : List Layer) (n : String)
    (c : ColorInput) (d : String) (hex : ∃ l ∈ layers, l.name = n) :
    create_or_get_layer layers n c d = (layers, true) := by
  obtain ⟨l, hl, hln⟩ := hex
  have hany : layers.any (fun l => l.name == n) = true :=
    List.any_eq_true.2 ⟨l, hl, beq_iff_eq.2 hln⟩
  simp [create_or_get_layer, hany]

/-- C5: `create_or_get_layer` is idempotent get-or-create: on an existing
layer name it returns success and mutates nothing; called twice with the
same (initially absent) name it leaves the layer table of the first call
unchanged, and that table holds exactly one layer of the name, carrying
the color and description of the first (creating) call. -/
theorem claim5_layer_registry :
    (∀ layers n c d, (∃ l ∈ layers, l.name = n) →
        create_or_get_layer layers n c d = (layers, true)) ∧
    (∀ layers n c₁ d₁ c₂ d₂, (∀ l ∈ layers, l.name ≠ n) →
        (create_or_get_layer (create_or_get_layer layers n c₁ d₁).1 n c₂ d₂) =
          ((create_or_get_layer layers n c₁ d₁).1, true) ∧
        ((create_or_get_layer layers n c₁ d₁).1).filter (fun l => l.name == n) =
          [⟨n, get_color_index c₁, d₁⟩]) := by
  constructor
  · exact create_or_get_layer_existing
  · intro layers n c₁ d₁ c₂ d₂ h
    have hany : layers.any (fun l => l.name == n) = false := by
      rw [List.any_eq_false]
      intro l hl
      simp only [beq_iff_eq]
      exact h l hl
    have hfirst : (create_or_get_layer layers n c₁ d₁).1 =
        layers ++ [⟨n, get_color_index c₁, d₁⟩] := by
      simp [create_or_get_layer, hany]
    constructor
    · apply create_or_get_layer_existing
      refine ⟨⟨n, get_color_index c₁, d₁⟩, ?_, rfl⟩
      rw [hfirst]
      exact List.mem_append_right _ (List.mem_singleton_self _)
    · rw [hfirst, List.filter_append]
      have hnil : layers.filter (fun l => l.name == n) = [] := by
        simp only [List.filter_eq_nil_iff, beq_eq_false_iff_ne]
        intro l hl hln
        exact h l hl (beq_iff_eq.1 hln)
      simp [hnil]

/-- Witness for C5 applied at the empty layer table and the name
`"WALLS"`: the second call mutates nothing and the table holds exactly
one `"WALLS"` layer with the first call's color 7 and description. -/
theorem claim5_layer_registry_witness :
    (create_or_get_layer
        (create_or_get_layer [] "WALLS" (.name "white") "walls").1
        "WALLS" (.name "red") "other") =
      ((create_or_get_layer [] "WALLS" (.name "white") "walls").1, true) ∧
    ((create_or_get_layer [] "WALLS" (.name "white") "walls").1).filter
        (fun l => l.name == "WALLS") =
      [⟨"WALLS", get_color_index (.name "white"), "walls"⟩] :=
  claim5_layer_registry.2 [] "WALLS" (.name "white") "walls" (.name "red")
    "other" (by intro l hl; cases hl)

/-- A non-degenerate segment has squared length strictly positive. -/
theorem seg_sq_len_pos (s e : Point) (hne : s ≠ e) :
    0 < (e.1 - s.1) ^ 2 + (e.2 - s.2) ^ 2 := by
  have hd : e.1 - s.1 ≠ 0 ∨ e.2 - s.2 ≠ 0 := by
    by_contra hc
    push_neg at hc
    exact hne (Prod.ext_iff.2 ⟨by linarith [hc.1], by linarith [hc.2]⟩)
  rcases hd with h | h
  · nlinarith [pow_two_pos_of_ne_zero h, sq_nonneg (e.2 - s.2)]
  · nlinarith [pow_two_pos_of_ne_zero h, sq_nonneg (e.1 - s.1)]

/-- On a non-degenerate segment, `calculate_parallel_points` takes its
offset branch and returns the explicitly offset endpoints. -/
theorem calculate_parallel_points_of_ne (s e : Point) (t : ℝ) (hne : s ≠ e) :
    calculate_parallel_points s e t =
      ((s.1 + -(e.2 - s.2) / Real.sqrt ((e.1 - s.1) ^ 2 + (e.2 - s.2) ^ 2) * (t / 2),
        s.2 + (e.1 - s.1) / Real.sqrt ((e.1 - s.1) ^ 2 + (e.2 - s.2) ^ 2) * (t / 2)),
       (e.1 + -(e.2 - s.2) / Real.sqrt ((e.1 - s.1) ^ 2 + (e.2 - s.2) ^ 2) * (t / 2),
        e.2 + (e.1 - s.1) / Real.sqrt ((e.1 - s.1) ^ 2 + (e.2 - s.2) ^ 2) * (t / 2))) := by
  have hLne : Real.sqrt ((e.1 - s.1) ^ 2 + (e.2 - s.2) ^ 2) ≠ 0 :=
    Real.sqrt_ne_zero'.2 (seg_sq_len_pos s e hne)
  simp only [calculate_parallel_points]
  rw [if_neg hLne]

/-- C2: when the external calls succeed and `start ≠ end`, `create_line`
with thickness `t > 0` issues exactly four segments: the original, one
parallel segment whose endpoints are the originals offset by a vector
perpendicular to the segment of magnitude exactly `t / 2`, and the two
end caps joining each original endpoint to its offset counterpart; with
thickness 0 it issues exactly the one original segment. -/
theorem claim2_thick_line (s e : Point) (t : ℝ) (hne : s ≠ e) (ht : 0 < t) :
    (∃ p : ℝ × ℝ,
        p.1 ^ 2 + p.2 ^ 2 = (t / 2) ^ 2 ∧
        Real.sqrt (p.1 ^ 2 + p.2 ^ 2) = t / 2 ∧
        p.1 * (e.1 - s.1) + p.2 * (e.2 - s.2) = 0 ∧
        create_line_segments s e t =
          [(s, e),
           ((s.1 + p.1, s.2 + p.2), (e.1 + p.1, e.2 + p.2)),
           (s, (s.1 + p.1, s.2 + p.2)),
           (e, (e.1 + p.1, e.2 + p.2))]) ∧
    create_line_segments s e 0 = [(s, e)] := by
  have hpos := seg_sq_len_pos s e hne
  have hLne : Real.sqrt ((e.1 - s.1) ^ 2 + (e.2 - s.2) ^ 2) ≠ 0 :=
    Real.sqrt_ne_zero'.2 hpos
  have hL2 : Real.sqrt ((e.1 - s.1) ^ 2 + (e.2 - s.2) ^ 2) ^ 2
      = (e.1 - s.1) ^ 2 + (e.2 - s.2) ^ 2 := Real.sq_sqrt hpos.le
  have hnorm :
      (-(e.2 - s.2) / Real.sqrt ((e.1 - s.1) ^ 2 + (e.2 - s.2) ^ 2) * (t / 2)) ^ 2 +
        ((e.1 - s.1) / Real.sqrt ((e.1 - s.1) ^ 2 + (e.2 - s.2) ^ 2) * (t / 2)) ^ 2
      = (t / 2) ^ 2 := by
    have hexp :
        (-(e.2 - s.2) / Real.sqrt ((e.1 - s.1) ^ 2 + (e.2 - s.2) ^ 2) * (t / 2)) ^ 2 +
          ((e.1 - s.1) / Real.sqrt ((e.1 - s.1) ^ 2 + (e.2 - s.2) ^ 2) * (t / 2)) ^ 2
        = (((e.1 - s.1) ^ 2 + (e.2 - s.2) ^ 2) /
            Real.sqrt ((e.1 - s.1) ^ 2 + (e.2 - s.2) ^ 2) ^ 2) * (t / 2) ^ 2 := by
      ring
    rw [hexp, hL2, div_self (ne_of_gt hpos), one_mul]
  refine ⟨⟨(-(e.2 - s.2) / Real.sqrt ((e.1 - s.1) ^ 2 + (e.2 - s.2) ^ 2) * (t / 2),
      (e.1 - s.1) / Real.sqrt ((e.1 - s.1) ^ 2 + (e.2 - s.2) ^ 2) * (t / 2)),
      hnorm, ?_, ?_, ?_⟩, ?_⟩
  · rw [hnorm, Real.sqrt_sq (by positivity : (0:ℝ) ≤ t / 2)]
  · field_simp
    ring
  · simp only [create_line_segments, if_pos ht]
    rw [calculate_parallel_points_of_ne s e t hne]
  · simp only [create_line_segments]
    rw [if_neg (lt_irrefl 0)]

/-- Witness for C2 at `start = (0,0)`, `end = (10,0)`, thickness 2: four
segments are issued, and one with thickness 0. -/
theorem claim2_thick_line_witness :
    (create_line_segments ((0 : ℝ), (0 : ℝ)) ((10 : ℝ), (0 : ℝ)) 2).length = 4 ∧
    create_line_segments ((0 : ℝ), (0 : ℝ)) ((10 : ℝ), (0 : ℝ)) 0 =
      [(((0 : ℝ), (0 : ℝ)), ((10 : ℝ), (0 : ℝ)))] := by
  obtain ⟨⟨p, -, -, -, hlist⟩, hzero⟩ :=
    claim2_thick_line ((0 : ℝ), (0 : ℝ)) ((10 : ℝ), (0 : ℝ)) 2
      (by simp [Prod.ext_iff]) (by norm_num)
  exact ⟨by rw [hlist]; rfl, hzero⟩

/-- C3: when the external calls succeed, `create_circle` with thickness
`t > 0` issues exactly three concentric circles at the given center: the
original radius, the outer radius `r + t / 2`, and the inner radius
`max 0.1 (r - t / 2)`, which never falls below 0.1 (and equals 0.1
whenever `r - t / 2 < 0.1`); with thickness 0 it issues exactly the one
original circle. -/
theorem claim3_thick_circle (c : Point) (r t : ℝ) (ht : 0 < t) :
    create_circle_calls c r t =
      [(c, r), (c, r + t / 2), (c, max 0.1 (r - t / 2))] ∧
    (0.1 : ℝ) ≤ max 0.1 (r - t / 2) ∧
    (r - t / 2 < 0.1 → max 0.1 (r - t / 2) = 0.1) ∧
    create_circle_calls c r 0 = [(c, r)] := by
  refine ⟨by simp only [create_circle_calls, if_pos ht], le_max_left _ _,
    fun h => max_eq_left h.le, ?_⟩
  simp only [create_circle_calls]
  rw [if_neg (lt_irrefl 0)]

/-- Witness for C3 at center `(0,0)`, radius 1, thickness 4: the inner
radius `max 0.1 (1 - 2) = 0.1` stays at the floor. -/
theorem claim3_thick_circle_witness :
    create_circle_calls ((0 : ℝ), (0 : ℝ)) 1 4 =
      [(((0 : ℝ), (0 : ℝ)), 1), (((0 : ℝ), (0 : ℝ)), 1 + 4 / 2),
       (((0 : ℝ), (0 : ℝ)), max 0.1 (1 - 4 / 2))] ∧
    max (0.1 : ℝ) (1 - 4 / 2) = 0.1 :=
  ⟨(claim3_thick_circle ((0 : ℝ), (0 : ℝ)) 1 4 (by norm_num)).1,
   (claim3_thick_circle ((0 : ℝ), (0 : ℝ)) 1 4 (by norm_num)).2.2.1 (by norm_num)⟩

/-- C10: on a zero-length segment (`start = end`),
`calculate_parallel_points` returns the original endpoints unchanged for
every thickness, instead of dividing by the zero segment length. -/
theorem claim10_degenerate_parallel (s e : Point) (t : ℝ) (h : s = e) :
    calculate_parallel_points s e t = (s, e) := by
  subst h
  simp only [calculate_parallel_points]
  rw [if_pos]
  simp [sub_self]

/-- Witness for C10 at the degenerate segment from `(1,2)` to `(1,2)`
with thickness 5. -/
theorem claim10_degenerate_parallel_witness :
    calculate_parallel_points ((1 : ℝ), (2 : ℝ)) ((1 : ℝ), (2 : ℝ)) 5 =
      (((1 : ℝ), (2 : ℝ)), ((1 : ℝ), (2 : ℝ))) :=
  claim10_degenerate_parallel ((1 : ℝ), (2 : ℝ)) ((1 : ℝ), (2 : ℝ)) 5 rfl

/-- C6: `create_rectangle` issues exactly four `create_line` calls in
bottom, right, top, left order, forwarding the given thickness unchanged
to each edge; the edges chain into a closed loop (each edge starts where
the previous one ended, the first where the last ended), and the corner
set is exactly the Cartesian product of the corners' x- and
y-coordinates. -/
theorem claim6_rectangle (c1 c2 : Point) (t : ℝ) :
    create_rectangle_lines c1 c2 t =
      [((c1.1, c1.2), (c2.1, c1.2), t),
       ((c2.1, c1.2), (c2.1, c2.2), t),
       ((c2.1, c2.2), (c1.1, c2.2), t),
       ((c1.1, c2.2), (c1.1, c1.2), t)] ∧
    (create_rectangle_lines c1 c2 t).map (fun call => call.2.2) =
      [t, t, t, t] ∧
    ((create_rectangle_lines c1 c2 t).map (fun call => call.1)).rotate 1 =
      (create_rectangle_lines c1 c2 t).map (fun call => call.2.1) ∧
    {p : Point | ∃ call ∈ create_rectangle_lines c1 c2 t,
        p = call.1 ∨ p = call.2.1} =
      ({c1.1, c2.1} : Set ℝ) ×ˢ ({c1.2, c2.2} : Set ℝ) := by
  refine ⟨rfl, rfl, rfl, ?_⟩
  ext p
  simp only [create_rectangle_lines, List.mem_cons, List.not_mem_nil, or_false,
    Set.mem_setOf_eq, Set.mem_prod, Set.mem_insert_iff, Set.mem_singleton_iff]
  constructor
  · rintro ⟨call, (rfl | rfl | rfl | rfl), (rfl | rfl)⟩ <;> simp
  · rintro ⟨h1 | h1, h2 | h2⟩
    · exact ⟨((c1.1, c1.2), (c2.1, c1.2), t), Or.inl rfl,
        Or.inl (Prod.ext_iff.2 ⟨h1, h2⟩)⟩
    · exact ⟨((c1.1, c2.2), (c1.1, c1.2), t), Or.inr (Or.inr (Or.inr rfl)),
        Or.inl (Prod.ext_iff.2 ⟨h1, h2⟩)⟩
    · exact ⟨((c2.1, c1.2), (c2.1, c2.2), t), Or.inr (Or.inl rfl),
        Or.inl (Prod.ext_iff.2 ⟨h1, h2⟩)⟩
    · exact ⟨((c2.1, c2.2), (c1.1, c2.2), t), Or.inr (Or.inr (Or.inl rfl)),
        Or.inl (Prod.ext_iff.2 ⟨h1, h2⟩)⟩

/-- C7: creating a wall from (0,0) to (10,0) with no color given and the
default thickness 0 resolves the layer to "WALLS" and the color to
"white", substitutes the default wall thickness 0.1, and (when the
external calls succeed) issues exactly the four segments: main, one
parallel offset by 0.05, and the two end caps. -/
theorem claim7_wall_scenario :
    create_structure_wall ((0 : ℝ), (0 : ℝ)) ((10 : ℝ), (0 : ℝ)) none 0 =
      ("WALLS", "white",
        [(((0 : ℝ), (0 : ℝ)), ((10 : ℝ), (0 : ℝ))),
         (((0 : ℝ), (0.05 : ℝ)), ((10 : ℝ), (0.05 : ℝ))),
         (((0 : ℝ), (0 : ℝ)), ((0 : ℝ), (0.05 : ℝ))),
         (((10 : ℝ), (0 : ℝ)), ((10 : ℝ), (0.05 : ℝ)))]) := by
  have h100 : Real.sqrt 100 = 10 := by
    rw [show (100 : ℝ) = 10 ^ 2 by norm_num]
    exact Real.sqrt_sq (by norm_num)
  have hpar : calculate_parallel_points ((0 : ℝ), (0 : ℝ)) ((10 : ℝ), (0 : ℝ)) 0.1 =
      (((0 : ℝ), (0.05 : ℝ)), ((10 : ℝ), (0.05 : ℝ))) := by
    simp only [calculate_parallel_points]
    norm_num [h100]
  have hlayer : get_layer_for_structure_type "wall" = "WALLS" := by decide
  have hcolor : resolve_structure_color none "WALLS" = "white" := by decide
  unfold create_structure_wall create_wall_segments
  rw [hlayer]
  simp only [hcolor, if_neg (lt_irrefl (0 : ℝ))]
  simp only [create_line_segments, if_pos (by norm_num : (0 : ℝ) < 0.1), hpar]

/-- C8 counterexample: with the connection up, the main external `AddLine`
call throwing (so `safe_operation` returns `None` and no handle is
obtained), and thickness 0, `create_line` does NOT return an error
object: it returns `success: True` with the placeholder handle
`"line_created"` and no warning. -/
theorem claim8_counterexample :
    create_line_result true none 0 none none none =
      .success ["line_created"] none := by
  simp [create_line_result]

/-- C8 as amended: `create_line` returns an error object only when not
connected to AutoCAD; when connected it always reports `success: True`
with no warning — in particular, when the external call throws and no
handle is obtained it reports the placeholder handle `"line_created"`
instead of an error. -/
theorem claim8_amended (mo po c1 c2 : Option String) (t : ℝ) :
    create_line_result false mo t po c1 c2 =
      .error "Not connected to AutoCAD" ∧
    (∀ msg, create_line_result true mo t po c1 c2 ≠ .error msg) ∧
    (mo = none → create_line_result true mo t po c1 c2 =
      .success ["line_created"] none) := by
  refine ⟨by simp [create_line_result], ?_, ?_⟩
  · intro msg
    simp [create_line_result]
  · rintro rfl
    simp [create_line_result]

/-- Witness for C8 (amended) with the connection up, a thrown main call
and thickness 1. -/
theorem claim8_amended_witness :
    create_line_result true none 1 none none none =
      .success ["line_created"] none :=
  (claim8_amended none none none none 1).2.2 rfl

/-- C9: `delete_all_entities` with `confirm = false` removes no entities
and returns an explicit refusal; deletion of all entities happens only
with `confirm = true`. -/
theorem claim9_delete_all_confirmation (entities : List String) :
    delete_all_entities entities false =
      (entities, .refused "Deletion not confirmed") ∧
    (delete_all_entities entities false).1 = entities ∧
    delete_all_entities entities true = ([], .deleted entities.length) :=
  ⟨rfl, rfl, rfl⟩

end AutoCADMCP
